import Mathlib

/-!
Verification of the JT-DevStudio authentication and settings code.

The definitions below are a shallow embedding of:
  * `src/lib/validations/auth-schemas.ts` (zod schemas, regexes,
    `validatePasswordStrength`), and
  * the server actions in `src/app/login/actions.ts` and
    `src/app/settings/actions.ts`.

JavaScript strings are modelled as Lean `String`; a regex character-class
test on a string becomes an explicit predicate over the string's character
list.  Effectful server actions become pure functions taking the rate-limit
outcome, the submitted form fields and a `Backend` record (the responses
the Supabase client would give) and returning the action's result together
with the ordered list of validation / backend steps it performed.
-/

namespace JTDev

/-! ### Character classes used by the regexes of auth-schemas.ts -/

/-- ASCII `A`–`Z`. -/
def isAsciiUpper (c : Char) : Bool := 65 ≤ c.toNat && c.toNat ≤ 90

/-- ASCII `a`–`z`. -/
def isAsciiLower (c : Char) : Bool := 97 ≤ c.toNat && c.toNat ≤ 122

/-- ASCII `0`–`9` (the regex class `\d`). -/
def isAsciiDigit (c : Char) : Bool := 48 ≤ c.toNat && c.toNat ≤ 57

/-- ASCII letter (`[a-zA-Z]`). -/
def isAsciiLetter (c : Char) : Bool := isAsciiUpper c || isAsciiLower c

/-- The special-character class `[@$!%*?&]` of `passwordRegex`
(codepoints 64, 36, 33, 37, 42, 63, 38). -/
def isPasswordSpecial (c : Char) : Bool :=
  c.toNat = 64 || c.toNat = 36 || c.toNat = 33 || c.toNat = 37 ||
  c.toNat = 42 || c.toNat = 63 || c.toNat = 38

/-- The JavaScript regex class `\s`: tab through carriage return, space,
no-break space, ogham space mark, the U+2000–U+200A range, line and
paragraph separators, narrow no-break space, medium mathematical space,
ideographic space and the byte-order mark. -/
def isJsWhitespace (c : Char) : Bool :=
  (9 ≤ c.toNat && c.toNat ≤ 13) || c.toNat = 32 || c.toNat = 160 ||
  c.toNat = 0x1680 || (0x2000 ≤ c.toNat && c.toNat ≤ 0x200a) ||
  c.toNat = 0x2028 || c.toNat = 0x2029 || c.toNat = 0x202f ||
  c.toNat = 0x205f || c.toNat = 0x3000 || c.toNat = 0xfeff

/-- A character allowed anywhere in `passwordRegex`:
`[A-Za-z\d@$!%*?&]`. -/
def isPasswordChar (c : Char) : Bool :=
  isAsciiLetter c || isAsciiDigit c || isPasswordSpecial c

/-- `passwordRegex = /^(?=.*[a-z])(?=.*[A-Z])(?=.*\d)(?=.*[@$!%*?&])[A-Za-z\d@$!%*?&]{8,}$/`
from auth-schemas.ts: every character drawn from the password class, at
least 8 of them, and the four lookaheads requiring a lowercase letter, an
uppercase letter, a digit and a special character. -/
def passwordRegexTest (s : String) : Bool :=
  8 ≤ s.length && s.data.all isPasswordChar &&
  s.data.any isAsciiLower && s.data.any isAsciiUpper &&
  s.data.any isAsciiDigit && s.data.any isPasswordSpecial

/-- A character allowed after the first position of `usernameRegex`:
`[a-zA-Z0-9_]` (95 is the underscore). -/
def isUsernameTailChar (c : Char) : Bool :=
  isAsciiLetter c || isAsciiDigit c || c.toNat = 95

/-- `usernameRegex = /^[a-zA-Z][a-zA-Z0-9_]{2,19}$/` from auth-schemas.ts:
a leading letter followed by 2 to 19 letters, digits or underscores. -/
def usernameRegexTest (s : String) : Bool :=
  match s.data with
  | [] => false
  | c :: rest =>
    isAsciiLetter c && 2 ≤ rest.length && rest.length ≤ 19 &&
    rest.all isUsernameTailChar

/-- A character allowed by `fullNameRegex`: `[a-zA-Z\s'-]`
(39 is the apostrophe, 45 the hyphen). -/
def isFullNameChar (c : Char) : Bool :=
  isAsciiLetter c || isJsWhitespace c || c.toNat = 39 || c.toNat = 45

/-- `fullNameRegex = /^[a-zA-Z\s'-]+$/` from auth-schemas.ts: a nonempty
string of letters, whitespace, apostrophes and hyphens. -/
def fullNameRegexTest (s : String) : Bool :=
  !s.data.isEmpty && s.data.all isFullNameChar

/-! ### zod's `.email()` check

zod validates `.email()` with the case-insensitive regex
`^(?!\.)(?!.*\.\.)([A-Za-z0-9_'+\-\.]*)[A-Za-z0-9_+\-]@([A-Za-z0-9][A-Za-z0-9\-]*\.)+[A-Za-z]{2,}$`.
Because `@` appears in no character class, a match splits the string at
its unique `@` into a local part and a domain. -/

/-- A character allowed in the local part of an email
(`[A-Za-z0-9_'+\-\.]`). -/
def isEmailLocalChar (c : Char) : Bool :=
  isAsciiLetter c || isAsciiDigit c || c.toNat = 95 || c.toNat = 39 ||
  c.toNat = 43 || c.toNat = 45 || c.toNat = 46

/-- A character allowed as the last character of the local part
(`[A-Za-z0-9_+\-]`, i.e. no dot and no apostrophe). -/
def isEmailLocalLastChar (c : Char) : Bool :=
  isAsciiLetter c || isAsciiDigit c || c.toNat = 95 ||
  c.toNat = 43 || c.toNat = 45

/-- Split a character list at every occurrence of `sep`
(the pieces, in order, with the separators removed). -/
def splitOnChar (sep : Char) : List Char → List (List Char)
  | [] => [[]]
  | c :: rest =>
    match splitOnChar sep rest with
    | [] => if c = sep then [[], []] else [[c]]
    | h :: t => if c = sep then [] :: h :: t else (c :: h) :: t

/-- No two consecutive dots (the `(?!.*\.\.)` lookahead; 46 is the dot). -/
def noDoubleDot : List Char → Bool
  | [] => true
  | [_] => true
  | a :: b :: rest =>
    !(a.toNat = 46 && b.toNat = 46) && noDoubleDot (b :: rest)

/-- A non-final domain label: `[A-Za-z0-9][A-Za-z0-9\-]*`. -/
def emailDomainLabelOk (l : List Char) : Bool :=
  match l with
  | [] => false
  | c :: rest =>
    (isAsciiLetter c || isAsciiDigit c) &&
    rest.all (fun d => isAsciiLetter d || isAsciiDigit d || d.toNat = 45)

/-- The final top-level-domain label: `[A-Za-z]{2,}`. -/
def emailTldOk (l : List Char) : Bool := 2 ≤ l.length && l.all isAsciiLetter

/-- The dot-separated labels of the domain: at least one ordinary label
followed by the top-level domain. -/
def validEmailLabels : List (List Char) → Bool
  | [] => false
  | [_] => false
  | [l, tld] => emailDomainLabelOk l && emailTldOk tld
  | l :: rest => emailDomainLabelOk l && validEmailLabels rest

/-- zod's `.email()` validation, as described above. -/
def emailRegexTest (s : String) : Bool :=
  match splitOnChar '@' s.data with
  | [localPart, domain] =>
    (match localPart.reverse with
     | [] => false
     | lastc :: _ => isEmailLocalLastChar lastc) &&
    localPart.all isEmailLocalChar &&
    (match localPart with
     | [] => false
     | c :: _ => !(c.toNat = 46)) &&
    noDoubleDot localPart &&
    validEmailLabels (splitOnChar '.' domain)
  | _ => false

/-- JavaScript's `String.prototype.toLowerCase`, restricted to the ASCII
case mapping (every string these schemas lowercase has already matched an
ASCII-only regex, where the two functions agree). -/
def jsToLowerCase (s : String) : String :=
  ⟨s.data.map (fun c =>
    if 65 ≤ c.toNat && c.toNat ≤ 90 then Char.ofNat (c.toNat + 32) else c)⟩

/-! ### zod `safeParse` infrastructure

A schema's `safeParse` is modelled by the list of issues its checks
produce, in the order zod reports them (field order within an object,
check order within a field, refinements last); `success` holds exactly
when that list is empty, and then `data` carries the parsed value. -/

/-- One entry of `validation.error.issues`: its `message` and `path`. -/
structure ParseIssue where
  message : String
  path : List String
deriving DecidableEq

/-- The result of a schema's `safeParse`. -/
structure SafeParse (α : Type) where
  success : Bool
  issues : List ParseIssue
  data : Option α

/-- Package a list of issues and a candidate parsed value into a
`SafeParse` result. -/
def mkSafeParse {α : Type} (issues : List ParseIssue) (value : α) : SafeParse α :=
  if issues.isEmpty then ⟨true, [], some value⟩ else ⟨false, issues, none⟩

/-- `validation.error.issues[0].message` (empty for an empty list, a case
the actions never reach). -/
def firstIssueMessage : List ParseIssue → String
  | [] => ""
  | i :: _ => i.message

/-! ### The field checks of the zod schemas in auth-schemas.ts -/

/-- Issues of `signupSchema`'s `fullName` field:
`.min(2).max(100).regex(fullNameRegex)`. -/
def fullNameIssues (s : String) : List ParseIssue :=
  (if s.length < 2 then
    [⟨"Full name must be at least 2 characters", ["fullName"]⟩] else []) ++
  (if 100 < s.length then
    [⟨"Full name must be less than 100 characters", ["fullName"]⟩] else []) ++
  (if fullNameRegexTest s then [] else
    [⟨"Full name can only contain letters, spaces, hyphens, and apostrophes", ["fullName"]⟩])

/-- Issues of a `username` field: `.min(3).max(20).regex(usernameRegex)`
(shared verbatim by `signupSchema` and `changeUsernameSchema`). -/
def usernameFieldIssues (s : String) : List ParseIssue :=
  (if s.length < 3 then
    [⟨"Username must be at least 3 characters", ["username"]⟩] else []) ++
  (if 20 < s.length then
    [⟨"Username must be less than 20 characters", ["username"]⟩] else []) ++
  (if usernameRegexTest s then [] else
    [⟨"Username must start with a letter and contain only letters, numbers, and underscores", ["username"]⟩])

/-- Issues of `signupSchema`'s `email` field:
`.email(...).max(254).toLowerCase()` (the lowercasing is a transform, not
a check). -/
def signupEmailIssues (s : String) : List ParseIssue :=
  (if emailRegexTest s then [] else
    [⟨"Please enter a valid email address", ["email"]⟩]) ++
  (if 254 < s.length then
    [⟨"Email must be less than 254 characters", ["email"]⟩] else [])

/-- Issues of a password field validated by
`.min(8).regex(passwordRegex)` (the `password` field of `signupSchema`
and the `newPassword` field of `changePasswordSchema`). -/
def strongPasswordIssues (field : String) (s : String) : List ParseIssue :=
  (if s.length < 8 then
    [⟨"Password must be at least 8 characters", [field]⟩] else []) ++
  (if passwordRegexTest s then [] else
    [⟨"Password must include uppercase, lowercase, number, and special character (@$!%*?&)", [field]⟩])

/-! ### The schemas -/

/-- The raw fields submitted to `signup`. -/
structure SignupForm where
  fullName : String
  username : String
  email : String
  password : String
deriving DecidableEq

/-- The parsed output of `signupSchema` (the email lowercased by its
`.toLowerCase()` transform). -/
structure SignupData where
  fullName : String
  username : String
  email : String
  password : String
deriving DecidableEq

/-- `signupSchema.safeParse` on the four submitted strings. -/
def signupSchemaParse (f : SignupForm) : SafeParse SignupData :=
  mkSafeParse
    (fullNameIssues f.fullName ++ usernameFieldIssues f.username ++
     signupEmailIssues f.email ++ strongPasswordIssues "password" f.password)
    ⟨f.fullName, f.username, jsToLowerCase f.email, f.password⟩

/-- The parsed output of `loginSchema`. -/
structure LoginData where
  email : String
  password : String
deriving DecidableEq

/-- `loginSchema.safeParse`: `email: .email(...).toLowerCase()`,
`password: .min(1)`. -/
def loginSchemaParse (email password : String) : SafeParse LoginData :=
  mkSafeParse
    ((if emailRegexTest email then [] else
       [⟨"Please enter a valid email address", ["email"]⟩]) ++
     (if password.length < 1 then
       [⟨"Password is required", ["password"]⟩] else []))
    ⟨jsToLowerCase email, password⟩

/-- The parsed output of `changePasswordSchema`. -/
structure ChangePasswordData where
  currentPassword : String
  newPassword : String
  confirmNewPassword : String
deriving DecidableEq

/-- The issues of `changePasswordSchema`: the base object checks
(`currentPassword: .min(1)`, `newPassword: .min(8).regex(passwordRegex)`,
`confirmNewPassword: .min(1)`) followed by its two `.refine` checks
(`newPassword === confirmNewPassword`, then
`currentPassword !== newPassword`); zod refinement issues are non-fatal,
so both refinements run whenever the fields are strings. -/
def changePasswordIssues (currentPw newPw confirmPw : String) : List ParseIssue :=
  (if currentPw.length < 1 then
    [⟨"Current password is required", ["currentPassword"]⟩] else []) ++
  strongPasswordIssues "newPassword" newPw ++
  (if confirmPw.length < 1 then
    [⟨"Please confirm your new password", ["confirmNewPassword"]⟩] else []) ++
  (if newPw = confirmPw then [] else
    [⟨"Passwords do not match", ["confirmNewPassword"]⟩]) ++
  (if currentPw = newPw then
    [⟨"New password must be different from current password", ["newPassword"]⟩] else [])

/-- `changePasswordSchema.safeParse`. -/
def changePasswordSchemaParse (currentPw newPw confirmPw : String) :
    SafeParse ChangePasswordData :=
  mkSafeParse (changePasswordIssues currentPw newPw confirmPw)
    ⟨currentPw, newPw, confirmPw⟩

/-- `changeUsernameSchema.safeParse`: the shared username checks followed
by the `.transform(val => val.toLowerCase())`, so the parsed value is the
lowercased username. -/
def changeUsernameSchemaParse (username : String) : SafeParse String :=
  mkSafeParse (usernameFieldIssues username) (jsToLowerCase username)

/-- Issues of `updateProfileSchema`'s `displayName` field:
`.min(2).max(100).regex(fullNameRegex).optional().or(z.literal(''))` — the
union accepts the empty string outright, otherwise the string checks
apply (on union failure the surfaced issues are modelled as the string
branch's issues). -/
def displayNameIssues (s : String) : List ParseIssue :=
  if s = "" then [] else
    (if s.length < 2 then
      [⟨"Display name must be at least 2 characters", ["displayName"]⟩] else []) ++
    (if 100 < s.length then
      [⟨"Display name must be less than 100 characters", ["displayName"]⟩] else []) ++
    (if fullNameRegexTest s then [] else
      [⟨"Display name can only contain letters, spaces, hyphens, and apostrophes", ["displayName"]⟩])

/-- Issues of `updateProfileSchema`'s `bio` field:
`.max(500).optional().or(z.literal(''))`. -/
def bioIssues (s : String) : List ParseIssue :=
  if s = "" then [] else
    if 500 < s.length then [⟨"Bio must be less than 500 characters", ["bio"]⟩] else []

/-- The parsed output of `updateProfileSchema`. -/
structure UpdateProfileData where
  displayName : String
  bio : String
deriving DecidableEq

/-- `updateProfileSchema.safeParse` on the two submitted strings. -/
def updateProfileSchemaParse (displayName bio : String) : SafeParse UpdateProfileData :=
  mkSafeParse (displayNameIssues displayName ++ bioIssues bio) ⟨displayName, bio⟩

/-! ### validatePasswordStrength (auth-schemas.ts lines 63–79) -/

/-- The `requirements` object computed by `validatePasswordStrength`. -/
structure PasswordRequirements where
  minLength : Bool
  hasUppercase : Bool
  hasLowercase : Bool
  hasNumber : Bool
  hasSpecial : Bool
deriving DecidableEq

/-- The return value of `validatePasswordStrength`. -/
structure PasswordStrength where
  requirements : PasswordRequirements
  score : Nat
  isValid : Bool
deriving DecidableEq

/-- `validatePasswordStrength(password)`: the five requirement booleans,
`score = Object.values(requirements).filter(Boolean).length`, and
`isValid = (score === 5)`. -/
def validatePasswordStrength (password : String) : PasswordStrength :=
  let requirements : PasswordRequirements :=
    { minLength := decide (8 ≤ password.length)
      hasUppercase := password.data.any isAsciiUpper
      hasLowercase := password.data.any isAsciiLower
      hasNumber := password.data.any isAsciiDigit
      hasSpecial := password.data.any isPasswordSpecial }
  let metCount :=
    [requirements.minLength, requirements.hasUppercase, requirements.hasLowercase,
     requirements.hasNumber, requirements.hasSpecial].countP (fun b => b)
  { requirements := requirements, score := metCount, isValid := metCount == 5 }

/-! ### Server actions

Each action becomes a pure function of: the client IP (used only to build
the rate-limit key), the outcome of `checkRateLimit` (`rateLimitOk`), the
submitted form fields, and a `Backend` record holding the responses the
Supabase client would give.  The function returns the action's result
together with the ordered trace of the checks and backend calls it made. -/

/-- The `AuthResult` type of login/actions.ts (an absent field is `none`). -/
structure AuthResult where
  success : Bool
  error : Option String := none
  redirectTo : Option String := none
deriving DecidableEq

/-- The `SettingsResult` type of settings/actions.ts. -/
structure SettingsResult where
  success : Bool
  error : Option String := none
  message : Option String := none
deriving DecidableEq

/-- The authenticated user as read from `supabase.auth.getUser()`:
its id, email, and the providers of its linked identities. -/
structure User where
  id : String
  email : String
  identityProviders : List String
deriving DecidableEq

/-- One observable step of an action, in execution order. -/
inductive Step where
  | rateLimitCheck (key : String)
  | authCheck
  | schemaValidation (schema : String)
  | manualCheck (field : String)
  | profileQuery (username : String)
  | profileQueryExcludingId (username : String) (excludedId : String)
  | signInPassword (email : String) (password : String)
  | signUpCall (email : String) (password : String) (fullName : String) (userName : String)
  | updateUserPassword (newPassword : String)
  | profileUpdate (userId : String) (username : String)
  | profileUpdateDisplay (userId : String)
  | oauthCall (provider : String) (redirectTo : String)
  | adminDeleteUser (userId : String)
  | signOutCall
deriving DecidableEq

/-- The pipeline phase a step belongs to: 0 rate limiting, 1 the
authentication check, 2 input validation (schema or manual), 3 a backend
call. -/
def Step.phase : Step → Nat
  | .rateLimitCheck _ => 0
  | .authCheck => 1
  | .schemaValidation _ => 2
  | .manualCheck _ => 2
  | _ => 3

/-- Is this step a backend call (phase 3)? -/
def Step.isBackendOp (s : Step) : Bool := s.phase == 3

/-- Is this step a schema validation? -/
def Step.isSchemaValidation : Step → Bool
  | .schemaValidation _ => true
  | _ => false

/-- Is this step the `supabase.auth.signUp` call? -/
def Step.isSignUpCall : Step → Bool
  | .signUpCall _ _ _ _ => true
  | _ => false

/-- Is this step the `supabase.auth.admin.deleteUser` call? -/
def Step.isAdminDeleteUser : Step → Bool
  | .adminDeleteUser _ => true
  | _ => false

/-- The trace is ordered by pipeline phase. -/
def phasesOrdered : List Step → Bool
  | [] => true
  | [_] => true
  | a :: b :: rest => decide (a.phase ≤ b.phase) && phasesOrdered (b :: rest)

/-- The responses the Supabase client gives during one action run:
`currentUser` is the `auth.getUser()` answer, `profileExists u` whether
the `profiles` query `.eq('username', u).single()` finds a row,
`profileExistsExcludingId u i` the same with `.neq('id', i)`,
`signInPasswordError e p` the error of `auth.signInWithPassword`, and the
remaining fields the errors (or `none` on success) of the other calls. -/
structure Backend where
  currentUser : Option User := none
  profileExists : String → Bool := fun _ => false
  profileExistsExcludingId : String → String → Bool := fun _ _ => false
  signInPasswordError : String → String → Option String := fun _ _ => none
  signUpError : Option String := none
  updateUserError : Option String := none
  profileUpdateError : Option String := none
  deleteUserError : Option String := none
  oauthError : Option String := none
  oauthUrl : Option String := none

/-- `requireAuth` of settings/actions.ts: throws (modelled as
`Except.error`) when `auth.getUser()` yields no user. -/
def requireAuth (b : Backend) : Except String User :=
  match b.currentUser with
  | none => Except.error "You must be logged in to perform this action"
  | some u => Except.ok u

/-- The `login` server action (login/actions.ts lines 32–59). -/
def loginAction (clientIp : String) (rateLimitOk : Bool) (email password : String)
    (b : Backend) : AuthResult × List Step :=
  if !rateLimitOk then
    ({ success := false, error := some "Too many login attempts. Please try again later." },
     [Step.rateLimitCheck ("login:" ++ clientIp)])
  else
    match (loginSchemaParse email password).data with
    | none =>
      ({ success := false,
         error := some (firstIssueMessage (loginSchemaParse email password).issues) },
       [Step.rateLimitCheck ("login:" ++ clientIp), Step.schemaValidation "loginSchema"])
    | some d =>
      match b.signInPasswordError d.email d.password with
      | some m =>
        ({ success := false, error := some m },
         [Step.rateLimitCheck ("login:" ++ clientIp), Step.schemaValidation "loginSchema",
          Step.signInPassword d.email d.password])
      | none =>
        ({ success := true, redirectTo := some "/" },
         [Step.rateLimitCheck ("login:" ++ clientIp), Step.schemaValidation "loginSchema",
          Step.signInPassword d.email d.password])

/-- The `signup` server action (login/actions.ts lines 65–117): rate
limit, schema validation, the username-availability query on the
lowercased username, then `auth.signUp` with `user_name` lowercased. -/
def signupAction (clientIp : String) (rateLimitOk : Bool) (form : SignupForm)
    (b : Backend) : AuthResult × List Step :=
  if !rateLimitOk then
    ({ success := false, error := some "Too many signup attempts. Please try again later." },
     [Step.rateLimitCheck ("signup:" ++ clientIp)])
  else
    match (signupSchemaParse form).data with
    | none =>
      ({ success := false,
         error := some (firstIssueMessage (signupSchemaParse form).issues) },
       [Step.rateLimitCheck ("signup:" ++ clientIp), Step.schemaValidation "signupSchema"])
    | some d =>
      if b.profileExists (jsToLowerCase d.username) then
        ({ success := false, error := some "Username is already taken" },
         [Step.rateLimitCheck ("signup:" ++ clientIp), Step.schemaValidation "signupSchema",
          Step.profileQuery (jsToLowerCase d.username)])
      else
        match b.signUpError with
        | some m =>
          ({ success := false, error := some m },
           [Step.rateLimitCheck ("signup:" ++ clientIp), Step.schemaValidation "signupSchema",
            Step.profileQuery (jsToLowerCase d.username),
            Step.signUpCall d.email d.password d.fullName (jsToLowerCase d.username)])
        | none =>
          ({ success := true, redirectTo := some "/" },
           [Step.rateLimitCheck ("signup:" ++ clientIp), Step.schemaValidation "signupSchema",
            Step.profileQuery (jsToLowerCase d.username),
            Step.signUpCall d.email d.password d.fullName (jsToLowerCase d.username)])

/-- The `changePassword` server action (settings/actions.ts lines
68–116): rate limit, `requireAuth` (whose thrown error the wrapping
try/catch converts into a result), schema validation, current-password
verification via `signInWithPassword` (failure mapped to a fixed
message), then `auth.updateUser`. -/
def changePasswordAction (clientIp : String) (rateLimitOk : Bool)
    (currentPw newPw confirmPw : String) (b : Backend) : SettingsResult × List Step :=
  if !rateLimitOk then
    ({ success := false, error := some "Too many attempts. Please try again later." },
     [Step.rateLimitCheck ("change-password:" ++ clientIp)])
  else
    match requireAuth b with
    | Except.error m =>
      ({ success := false, error := some m },
       [Step.rateLimitCheck ("change-password:" ++ clientIp), Step.authCheck])
    | Except.ok user =>
      match (changePasswordSchemaParse currentPw newPw confirmPw).data with
      | none =>
        ({ success := false,
           error := some (firstIssueMessage
             (changePasswordSchemaParse currentPw newPw confirmPw).issues) },
         [Step.rateLimitCheck ("change-password:" ++ clientIp), Step.authCheck,
          Step.schemaValidation "changePasswordSchema"])
      | some d =>
        match b.signInPasswordError user.email d.currentPassword with
        | some _ =>
          ({ success := false, error := some "Current password is incorrect" },
           [Step.rateLimitCheck ("change-password:" ++ clientIp), Step.authCheck,
            Step.schemaValidation "changePasswordSchema",
            Step.signInPassword user.email d.currentPassword])
        | none =>
          match b.updateUserError with
          | some m =>
            ({ success := false, error := some m },
             [Step.rateLimitCheck ("change-password:" ++ clientIp), Step.authCheck,
              Step.schemaValidation "changePasswordSchema",
              Step.signInPassword user.email d.currentPassword,
              Step.updateUserPassword d.newPassword])
          | none =>
            ({ success := true, message := some "Password updated successfully" },
             [Step.rateLimitCheck ("change-password:" ++ clientIp), Step.authCheck,
              Step.schemaValidation "changePasswordSchema",
              Step.signInPassword user.email d.currentPassword,
              Step.updateUserPassword d.newPassword])

/-- The `changeUsername` server action (settings/actions.ts lines
119–171): rate limit, `requireAuth`, schema validation (which lowercases
the username), the availability query excluding the caller's own row,
then the `profiles` update. -/
def changeUsernameAction (clientIp : String) (rateLimitOk : Bool)
    (username : String) (b : Backend) : SettingsResult × List Step :=
  if !rateLimitOk then
    ({ success := false, error := some "Too many attempts. Please try again later." },
     [Step.rateLimitCheck ("change-username:" ++ clientIp)])
  else
    match requireAuth b with
    | Except.error m =>
      ({ success := false, error := some m },
       [Step.rateLimitCheck ("change-username:" ++ clientIp), Step.authCheck])
    | Except.ok user =>
      match (changeUsernameSchemaParse username).data with
      | none =>
        ({ success := false,
           error := some (firstIssueMessage (changeUsernameSchemaParse username).issues) },
         [Step.rateLimitCheck ("change-username:" ++ clientIp), Step.authCheck,
          Step.schemaValidation "changeUsernameSchema"])
      | some uname =>
        if b.profileExistsExcludingId uname user.id then
          ({ success := false, error := some "Username is already taken" },
           [Step.rateLimitCheck ("change-username:" ++ clientIp), Step.authCheck,
            Step.schemaValidation "changeUsernameSchema",
            Step.profileQueryExcludingId uname user.id])
        else
          match b.profileUpdateError with
          | some m =>
            ({ success := false, error := some m },
             [Step.rateLimitCheck ("change-username:" ++ clientIp), Step.authCheck,
              Step.schemaValidation "changeUsernameSchema",
              Step.profileQueryExcludingId uname user.id,
              Step.profileUpdate user.id uname])
          | none =>
            ({ success := true, message := some "Username updated successfully" },
             [Step.rateLimitCheck ("change-username:" ++ clientIp), Step.authCheck,
              Step.schemaValidation "changeUsernameSchema",
              Step.profileQueryExcludingId uname user.id,
              Step.profileUpdate user.id uname])

/-- The `updateProfile` server action (settings/actions.ts lines
196–231): no rate limit; `requireAuth`, schema validation, then the
`profiles` update of display name and bio. -/
def updateProfileAction (displayName bio : String) (b : Backend) :
    SettingsResult × List Step :=
  match requireAuth b with
  | Except.error m => ({ success := false, error := some m }, [Step.authCheck])
  | Except.ok user =>
    match (updateProfileSchemaParse displayName bio).data with
    | none =>
      ({ success := false,
         error := some (firstIssueMessage (updateProfileSchemaParse displayName bio).issues) },
       [Step.authCheck, Step.schemaValidation "updateProfileSchema"])
    | some _ =>
      match b.profileUpdateError with
      | some m =>
        ({ success := false, error := some m },
         [Step.authCheck, Step.schemaValidation "updateProfileSchema",
          Step.profileUpdateDisplay user.id])
      | none =>
        ({ success := true, message := some "Profile updated successfully" },
         [Step.authCheck, Step.schemaValidation "updateProfileSchema",
          Step.profileUpdateDisplay user.id])

/-- The `requestAccountDeletion` server action (settings/actions.ts lines
392–416): rate limit, `requireAuth`, then a confirmation message built
from the user's email. -/
def requestAccountDeletionAction (clientIp : String) (rateLimitOk : Bool)
    (b : Backend) : SettingsResult × List Step :=
  if !rateLimitOk then
    ({ success := false, error := some "Too many attempts. Please try again later." },
     [Step.rateLimitCheck ("delete-request:" ++ clientIp)])
  else
    match requireAuth b with
    | Except.error m =>
      ({ success := false, error := some m },
       [Step.rateLimitCheck ("delete-request:" ++ clientIp), Step.authCheck])
    | Except.ok user =>
      ({ success := true,
         message := some ("A confirmation email has been sent to " ++ user.email ++
           ". Click the link to confirm account deletion.") },
       [Step.rateLimitCheck ("delete-request:" ++ clientIp), Step.authCheck])

/-- What `deleteAccount` ultimately does: return a result object, or
redirect (the `redirect('/login?deleted=true')` after the try/catch,
reached only when the try block ran to completion). -/
inductive DeleteOutcome where
  | result (r : SettingsResult)
  | redirect (target : String)
deriving DecidableEq

/-- The fields `deleteAccount` reads from its `FormData`; `none` models a
missing field (`formData.get` returning `null`). -/
structure DeleteForm where
  confirmText : Option String
  password : Option String
deriving DecidableEq

/-- JavaScript's `String.prototype.includes`, over character lists:
does `needle` occur contiguously in the second argument? -/
def hasSubstringChars (needle : List Char) : List Char → Bool
  | [] => needle.isEmpty
  | c :: rest => needle.isPrefixOf (c :: rest) || hasSubstringChars needle rest

/-- The tail of `deleteAccount` from the `auth.admin.deleteUser` call on:
a `'not authorized'` error falls back to sign-out plus a support message,
any other error is returned as-is, and success signs out and redirects. -/
def deleteAccountFinish (user : User) (b : Backend) (steps : List Step) :
    DeleteOutcome × List Step :=
  match b.deleteUserError with
  | some m =>
    if hasSubstringChars "not authorized".data m.data then
      (DeleteOutcome.result
        { success := false
          error := some "Account deletion requires admin access. Please contact support." },
       steps ++ [Step.adminDeleteUser user.id, Step.signOutCall])
    else
      (DeleteOutcome.result { success := false, error := some m },
       steps ++ [Step.adminDeleteUser user.id])
  | none =>
    (DeleteOutcome.redirect "/login?deleted=true",
     steps ++ [Step.adminDeleteUser user.id, Step.signOutCall])

/-- The `deleteAccount` server action (settings/actions.ts lines
323–387): rate limit, `requireAuth`, the manual `confirmText === 'DELETE'`
check, then — for users whose identities include the `email` provider —
the manual password-presence check and password verification, and finally
the deletion call. -/
def deleteAccountAction (clientIp : String) (rateLimitOk : Bool)
    (form : DeleteForm) (b : Backend) : DeleteOutcome × List Step :=
  if !rateLimitOk then
    (DeleteOutcome.result
      { success := false
        error := some "Too many attempts. Please try again later." },
     [Step.rateLimitCheck ("delete-account:" ++ clientIp)])
  else
    match requireAuth b with
    | Except.error m =>
      (DeleteOutcome.result { success := false, error := some m },
       [Step.rateLimitCheck ("delete-account:" ++ clientIp), Step.authCheck])
    | Except.ok user =>
      if form.confirmText ≠ some "DELETE" then
        (DeleteOutcome.result
          { success := false
            error := some "Please type DELETE to confirm" },
         [Step.rateLimitCheck ("delete-account:" ++ clientIp), Step.authCheck,
          Step.manualCheck "confirmText"])
      else
        if user.identityProviders.contains "email" then
          match form.password with
          | none =>
            (DeleteOutcome.result
              { success := false
                error := some "Password is required to delete your account" },
             [Step.rateLimitCheck ("delete-account:" ++ clientIp), Step.authCheck,
              Step.manualCheck "confirmText", Step.manualCheck "password"])
          | some pw =>
            if pw = "" then
              (DeleteOutcome.result
                { success := false
                  error := some "Password is required to delete your account" },
               [Step.rateLimitCheck ("delete-account:" ++ clientIp), Step.authCheck,
                Step.manualCheck "confirmText", Step.manualCheck "password"])
            else
              match b.signInPasswordError user.email pw with
              | some _ =>
                (DeleteOutcome.result { success := false, error := some "Incorrect password" },
                 [Step.rateLimitCheck ("delete-account:" ++ clientIp), Step.authCheck,
                  Step.manualCheck "confirmText", Step.manualCheck "password",
                  Step.signInPassword user.email pw])
              | none =>
                deleteAccountFinish user b
                  [Step.rateLimitCheck ("delete-account:" ++ clientIp), Step.authCheck,
                   Step.manualCheck "confirmText", Step.manualCheck "password",
                   Step.signInPassword user.email pw]
        else
          deleteAccountFinish user b
            [Step.rateLimitCheck ("delete-account:" ++ clientIp), Step.authCheck,
             Step.manualCheck "confirmText"]

/-- What an OAuth sign-in action ultimately does: redirect somewhere, or
fall through returning nothing (when the provider gives no error and no
URL). -/
inductive OAuthOutcome where
  | redirect (target : String)
  | completed
deriving DecidableEq

/-- The `signInWithGithub` server action (login/actions.ts lines
150–177): with no `SITE_URL` it redirects to `/error` before any backend
call; otherwise it calls `signInWithOAuth` with
`redirectTo = SITE_URL + '/auth/callback'` and redirects to the returned
URL (or to `/error` on provider error). -/
def signInWithGithubAction (siteUrl : Option String) (b : Backend) :
    OAuthOutcome × List Step :=
  match siteUrl with
  | none => (OAuthOutcome.redirect "/error", [])
  | some u =>
    match b.oauthError with
    | some _ =>
      (OAuthOutcome.redirect "/error", [Step.oauthCall "github" (u ++ "/auth/callback")])
    | none =>
      match b.oauthUrl with
      | some url =>
        (OAuthOutcome.redirect url, [Step.oauthCall "github" (u ++ "/auth/callback")])
      | none =>
        (OAuthOutcome.completed, [Step.oauthCall "github" (u ++ "/auth/callback")])

/-- The `signInWithGoogle` server action (login/actions.ts lines 182–213);
identical control flow to `signInWithGithubAction` (its extra
`queryParams` are constants that play no role in the claims). -/
def signInWithGoogleAction (siteUrl : Option String) (b : Backend) :
    OAuthOutcome × List Step :=
  match siteUrl with
  | none => (OAuthOutcome.redirect "/error", [])
  | some u =>
    match b.oauthError with
    | some _ =>
      (OAuthOutcome.redirect "/error", [Step.oauthCall "google" (u ++ "/auth/callback")])
    | none =>
      match b.oauthUrl with
      | some url =>
        (OAuthOutcome.redirect url, [Step.oauthCall "google" (u ++ "/auth/callback")])
      | none =>
        (OAuthOutcome.completed, [Step.oauthCall "google" (u ++ "/auth/callback")])

/-- A sample authenticated password-based user, for concrete runs. -/
def sampleUser : User := ⟨"user-1", "user@example.com", ["email"]⟩

/-- A backend with `sampleUser` signed in and every call succeeding. -/
def sampleBackend : Backend := { currentUser := some sampleUser }

/-! ### Helper lemmas about `mkSafeParse` -/

theorem mkSafeParse_data_of_success {α : Type} (issues : List ParseIssue) (v : α)
    (h : (mkSafeParse issues v).success = true) : (mkSafeParse issues v).data = some v := by
  by_cases he : issues.isEmpty <;> simp [mkSafeParse, he] at h ⊢

theorem mkSafeParse_data_of_failure {α : Type} (issues : List ParseIssue) (v : α)
    (h : (mkSafeParse issues v).success = false) : (mkSafeParse issues v).data = none := by
  by_cases he : issues.isEmpty <;> simp [mkSafeParse, he] at h ⊢

theorem mkSafeParse_data_inv {α : Type} (issues : List ParseIssue) (v : α) {d : α}
    (h : (mkSafeParse issues v).data = some d) : d = v := by
  by_cases he : issues.isEmpty <;> simp [mkSafeParse, he] at h
  exact h.symm

theorem mkSafeParse_failure_of_mem {α : Type} {i : ParseIssue} {issues : List ParseIssue}
    (v : α) (h : i ∈ issues) :
    (mkSafeParse issues v).success = false ∧ (mkSafeParse issues v).issues = issues := by
  cases issues with
  | nil => cases h
  | cons a t => simp [mkSafeParse]

/-! ### Helper lemmas about counting booleans -/

theorem countP_id_five (b1 b2 b3 b4 b5 : Bool) :
    [b1, b2, b3, b4, b5].countP (fun b => b) =
      ((if b1 then 1 else 0) + (if b2 then 1 else 0) + (if b3 then 1 else 0) +
       (if b4 then 1 else 0) + (if b5 then 1 else 0)) := by
  cases b1 <;> cases b2 <;> cases b3 <;> cases b4 <;> cases b5 <;> rfl

theorem countP_id_five_eq_five (b1 b2 b3 b4 b5 : Bool) :
    ([b1, b2, b3, b4, b5].countP (fun b => b) = 5) ↔
      (b1 = true ∧ b2 = true ∧ b3 = true ∧ b4 = true ∧ b5 = true) := by
  cases b1 <;> cases b2 <;> cases b3 <;> cases b4 <;> cases b5 <;> simp

/-- A string whose characters include an ASCII digit cannot match
`fullNameRegex`. -/
theorem fullNameRegexTest_eq_false_of_digit {s : String} {c : Char}
    (hc : c ∈ s.data) (hd : isAsciiDigit c = true) : fullNameRegexTest s = false := by
  cases hft : fullNameRegexTest s
  · rfl
  · exfalso
    unfold fullNameRegexTest at hft
    simp only [Bool.and_eq_true, List.all_eq_true] at hft
    have hch := hft.2 c hc
    unfold isFullNameChar isAsciiLetter isAsciiUpper isAsciiLower isJsWhitespace at hch
    unfold isAsciiDigit at hd
    simp only [Bool.or_eq_true, Bool.and_eq_true, decide_eq_true_eq] at hch hd
    omega

/-! ### Claim theorems -/

/-- C1: for every string `p`, `validatePasswordStrength p` returns
`isValid = true` iff all five requirements hold (length at least 8, an
uppercase letter, a lowercase letter, a digit, a special character from
`@$!%*?&`), and the returned `score` is the number of requirements
satisfied. -/
theorem C1_validatePasswordStrength_spec (p : String) :
    ((validatePasswordStrength p).isValid = true ↔
      (8 ≤ p.length ∧ (∃ c ∈ p.data, isAsciiUpper c = true) ∧
       (∃ c ∈ p.data, isAsciiLower c = true) ∧ (∃ c ∈ p.data, isAsciiDigit c = true) ∧
       (∃ c ∈ p.data, isPasswordSpecial c = true))) ∧
    (validatePasswordStrength p).score =
      ((if 8 ≤ p.length then 1 else 0) +
       (if ∃ c ∈ p.data, isAsciiUpper c = true then 1 else 0) +
       (if ∃ c ∈ p.data, isAsciiLower c = true then 1 else 0) +
       (if ∃ c ∈ p.data, isAsciiDigit c = true then 1 else 0) +
       (if ∃ c ∈ p.data, isPasswordSpecial c = true then 1 else 0)) := by
  unfold validatePasswordStrength
  simp only [beq_iff_eq]
  constructor
  · rw [countP_id_five_eq_five]
    simp [List.any_eq_true, decide_eq_true_eq]
  · rw [countP_id_five]
    congr 1
    · congr 1
      · congr 1
        · congr 1
          · simp [decide_eq_true_eq]
          · simp [List.any_eq_true]
        · simp [List.any_eq_true]
      · simp [List.any_eq_true]
    · simp [List.any_eq_true]

/-- C5: the username regex accepts `"abc123"`, rejects `"1abc"` (must
start with a letter) and rejects `"ab"` (shorter than 3 characters). -/
theorem C5_usernameRegex_examples :
    usernameRegexTest "abc123" = true ∧ usernameRegexTest "1abc" = false ∧
    usernameRegexTest "ab" = false := by decide

/-- C4: `changePasswordSchema` rejects every input whose new password
equals the current password, and every input whose new password differs
from its confirmation; in each case `safeParse` is unsuccessful and its
issues carry the corresponding message. -/
theorem C4_changePasswordSchema_rejections (currentPw newPw confirmPw : String) :
    (newPw = currentPw →
      (changePasswordSchemaParse currentPw newPw confirmPw).success = false ∧
      (⟨"New password must be different from current password", ["newPassword"]⟩ : ParseIssue) ∈
        (changePasswordSchemaParse currentPw newPw confirmPw).issues) ∧
    (newPw ≠ confirmPw →
      (changePasswordSchemaParse currentPw newPw confirmPw).success = false ∧
      (⟨"Passwords do not match", ["confirmNewPassword"]⟩ : ParseIssue) ∈
        (changePasswordSchemaParse currentPw newPw confirmPw).issues) := by
  constructor
  · intro h
    have hmem : (⟨"New password must be different from current password", ["newPassword"]⟩ :
        ParseIssue) ∈ changePasswordIssues currentPw newPw confirmPw := by
      simp [changePasswordIssues, h.symm]
    have := mkSafeParse_failure_of_mem
      (⟨currentPw, newPw, confirmPw⟩ : ChangePasswordData) hmem
    unfold changePasswordSchemaParse
    refine ⟨this.1, ?_⟩
    rw [this.2]
    exact hmem
  · intro h
    have hmem : (⟨"Passwords do not match", ["confirmNewPassword"]⟩ : ParseIssue) ∈
        changePasswordIssues currentPw newPw confirmPw := by
      simp [changePasswordIssues, h]
    have := mkSafeParse_failure_of_mem
      (⟨currentPw, newPw, confirmPw⟩ : ChangePasswordData) hmem
    unfold changePasswordSchemaParse
    refine ⟨this.1, ?_⟩
    rw [this.2]
    exact hmem

/-- C4 witness: a concrete input failing both refinements. -/
theorem C4_changePasswordSchema_rejections_witness :
    ((changePasswordSchemaParse "Aa1!aaaa" "Aa1!aaaa" "Bb2!bbbb").success = false ∧
     (⟨"New password must be different from current password", ["newPassword"]⟩ : ParseIssue) ∈
       (changePasswordSchemaParse "Aa1!aaaa" "Aa1!aaaa" "Bb2!bbbb").issues) ∧
    (⟨"Passwords do not match", ["confirmNewPassword"]⟩ : ParseIssue) ∈
      (changePasswordSchemaParse "Aa1!aaaa" "Aa1!aaaa" "Bb2!bbbb").issues := by
  have h := C4_changePasswordSchema_rejections "Aa1!aaaa" "Aa1!aaaa" "Bb2!bbbb"
  exact ⟨h.1 rfl, (h.2 (by decide)).2⟩

/-- C6: `loginSchema` rejects every input whose email fails zod's email
validation and every input with an empty password, and `signupSchema`
rejects every input whose full name contains a digit. -/
theorem C6_schema_rejections :
    (∀ email password : String, emailRegexTest email = false →
      (loginSchemaParse email password).success = false) ∧
    (∀ email : String, (loginSchemaParse email "").success = false) ∧
    (∀ form : SignupForm, (∃ c ∈ form.fullName.data, isAsciiDigit c = true) →
      (signupSchemaParse form).success = false) := by
  refine ⟨?_, ?_, ?_⟩
  · intro email password h
    have hmem : (⟨"Please enter a valid email address", ["email"]⟩ : ParseIssue) ∈
        ((if emailRegexTest email then [] else
           [⟨"Please enter a valid email address", ["email"]⟩]) ++
         (if password.length < 1 then
           [(⟨"Password is required", ["password"]⟩ : ParseIssue)] else [])) := by
      simp [h]
    exact (mkSafeParse_failure_of_mem (⟨jsToLowerCase email, password⟩ : LoginData) hmem).1
  · intro email
    have hmem : (⟨"Password is required", ["password"]⟩ : ParseIssue) ∈
        ((if emailRegexTest email then [] else
           [⟨"Please enter a valid email address", ["email"]⟩]) ++
         (if ("" : String).length < 1 then
           [(⟨"Password is required", ["password"]⟩ : ParseIssue)] else [])) := by
      have hlen : (("" : String).length < 1) := by decide
      simp [hlen]
    exact (mkSafeParse_failure_of_mem (⟨jsToLowerCase email, ""⟩ : LoginData) hmem).1
  · intro form hdigit
    obtain ⟨c, hc, hd⟩ := hdigit
    have hreg := fullNameRegexTest_eq_false_of_digit hc hd
    have hmem : (⟨"Full name can only contain letters, spaces, hyphens, and apostrophes",
        ["fullName"]⟩ : ParseIssue) ∈
        (fullNameIssues form.fullName ++ usernameFieldIssues form.username ++
         signupEmailIssues form.email ++ strongPasswordIssues "password" form.password) := by
      simp [fullNameIssues, hreg]
    exact (mkSafeParse_failure_of_mem
      (⟨form.fullName, form.username, jsToLowerCase form.email, form.password⟩ : SignupData)
      hmem).1

/-- C6 witness: concrete rejections — a malformed email, an empty
password, and a full name containing a digit. -/
theorem C6_schema_rejections_witness :
    (loginSchemaParse "notanemail" "x").success = false ∧
    (loginSchemaParse "a@b.co" "").success = false ∧
    (signupSchemaParse ⟨"J0hn", "johnny", "a@b.co", "Aa1!aaaa"⟩).success = false := by
  have h := C6_schema_rejections
  refine ⟨h.1 "notanemail" "x" (by decide), h.2.1 "a@b.co", ?_⟩
  exact h.2.2 ⟨"J0hn", "johnny", "a@b.co", "Aa1!aaaa"⟩
    ⟨'0', by decide, by decide⟩

/-- C2: when signup is submitted with a username already present in the
profiles table, the rate limit is not exceeded and schema validation
passes, the action returns `{success: false, error: "Username is already
taken"}` and never performs the `supabase.auth.signUp` call. -/
theorem C2_signup_taken_username (clientIp : String) (form : SignupForm) (b : Backend)
    (hvalid : (signupSchemaParse form).success = true)
    (htaken : b.profileExists (jsToLowerCase form.username) = true) :
    (signupAction clientIp true form b).1 =
      { success := false, error := some "Username is already taken", redirectTo := none } ∧
    (signupAction clientIp true form b).2.all (fun s => !s.isSignUpCall) = true := by
  have hd : (signupSchemaParse form).data =
      some ⟨form.fullName, form.username, jsToLowerCase form.email, form.password⟩ := by
    unfold signupSchemaParse at hvalid ⊢
    exact mkSafeParse_data_of_success _ _ hvalid
  simp [signupAction, hd, htaken, Step.isSignUpCall]

/-- C2 witness: a concrete signup run against a backend whose profiles
table already holds every username. -/
theorem C2_signup_taken_username_witness :
    ((signupSchemaParse ⟨"John Doe", "JohnDoe", "a@b.co", "Aa1!aaaa"⟩).success = true ∧
     ({ profileExists := fun _ => true : Backend}.profileExists
       (jsToLowerCase "JohnDoe") = true)) ∧
    (signupAction "203.0.113.5" true ⟨"John Doe", "JohnDoe", "a@b.co", "Aa1!aaaa"⟩
        { profileExists := fun _ => true }).1 =
      { success := false, error := some "Username is already taken", redirectTo := none } ∧
    (signupAction "203.0.113.5" true ⟨"John Doe", "JohnDoe", "a@b.co", "Aa1!aaaa"⟩
        { profileExists := fun _ => true }).2.all (fun s => !s.isSignUpCall) = true := by
  have h := C2_signup_taken_username "203.0.113.5" ⟨"John Doe", "JohnDoe", "a@b.co", "Aa1!aaaa"⟩
    { profileExists := fun _ => true } (by decide) rfl
  exact ⟨⟨by decide, rfl⟩, h.1, h.2⟩

/-- C7: in the settings server actions the unauthenticated-caller error
thrown by `requireAuth` is caught by the wrapping try/catch and converted
into the `{success, error?, message?}` result shape (the actions are total
functions into that shape, so no error propagates to the caller). -/
theorem C7_settings_actions_catch_auth_error (b : Backend)
    (hb : b.currentUser = none) (clientIp currentPw newPw confirmPw : String)
    (username displayName bio : String) (form : DeleteForm) :
    (changePasswordAction clientIp true currentPw newPw confirmPw b).1 =
      { success := false, error := some "You must be logged in to perform this action",
        message := none } ∧
    (changeUsernameAction clientIp true username b).1 =
      { success := false, error := some "You must be logged in to perform this action",
        message := none } ∧
    (updateProfileAction displayName bio b).1 =
      { success := false, error := some "You must be logged in to perform this action",
        message := none } ∧
    (requestAccountDeletionAction clientIp true b).1 =
      { success := false, error := some "You must be logged in to perform this action",
        message := none } ∧
    (deleteAccountAction clientIp true form b).1 =
      DeleteOutcome.result
        { success := false, error := some "You must be logged in to perform this action",
          message := none } := by
  refine ⟨?_, ?_, ?_, ?_, ?_⟩ <;>
    simp [changePasswordAction, changeUsernameAction, updateProfileAction,
      requestAccountDeletionAction, deleteAccountAction, requireAuth, hb]

/-- C7 witness: a concrete unauthenticated backend. -/
theorem C7_settings_actions_catch_auth_error_witness :
    (changePasswordAction "203.0.113.5" true "Old1!aaa" "Aa1!aaaa" "Aa1!aaaa" {}).1 =
      { success := false, error := some "You must be logged in to perform this action",
        message := none } ∧
    (deleteAccountAction "203.0.113.5" true ⟨some "DELETE", some "pw"⟩ {}).1 =
      DeleteOutcome.result
        { success := false, error := some "You must be logged in to perform this action",
          message := none } := by
  have h := C7_settings_actions_catch_auth_error {} rfl "203.0.113.5" "Old1!aaa" "Aa1!aaaa"
    "Aa1!aaaa" "johnny" "John" "bio" ⟨some "DELETE", some "pw"⟩
  exact ⟨h.1, h.2.2.2.2⟩

/-- C8: both OAuth sign-in actions redirect to `/error` without any
backend call when `SITE_URL` is absent, and when it is present the first
thing they do is call the provider with `redirectTo` built as
`SITE_URL ++ "/auth/callback"`. -/
theorem C8_oauth_site_url (b : Backend) :
    signInWithGithubAction none b = (OAuthOutcome.redirect "/error", []) ∧
    signInWithGoogleAction none b = (OAuthOutcome.redirect "/error", []) ∧
    (∀ u : String, (signInWithGithubAction (some u) b).2 =
      [Step.oauthCall "github" (u ++ "/auth/callback")]) ∧
    (∀ u : String, (signInWithGoogleAction (some u) b).2 =
      [Step.oauthCall "google" (u ++ "/auth/callback")]) := by
  refine ⟨rfl, rfl, ?_, ?_⟩ <;> intro u <;>
    cases he : b.oauthError <;> cases hu : b.oauthUrl <;>
    simp [signInWithGithubAction, signInWithGoogleAction, he, hu]

/-- C9: every username the actions store is the lowercase form of the
submitted username — the `user_name` metadata passed to `auth.signUp` by
`signup`, and the `username` column written by `changeUsername`'s
profiles update. -/
theorem C9_stored_usernames_lowercase (clientIp : String) (rateLimitOk : Bool)
    (form : SignupForm) (username : String) (b : Backend) :
    (∀ e pw fn un, Step.signUpCall e pw fn un ∈ (signupAction clientIp rateLimitOk form b).2 →
      un = jsToLowerCase form.username) ∧
    (∀ uid un, Step.profileUpdate uid un ∈ (changeUsernameAction clientIp rateLimitOk username b).2 →
      un = jsToLowerCase username) := by
  constructor
  · intro e pw fn un hmem
    cases rateLimitOk with
    | false => simp [signupAction] at hmem
    | true =>
      cases hd : (signupSchemaParse form).data with
      | none => simp [signupAction, hd] at hmem
      | some d =>
        have hdv : d = ⟨form.fullName, form.username, jsToLowerCase form.email, form.password⟩ := by
          unfold signupSchemaParse at hd
          exact mkSafeParse_data_inv _ _ hd
        subst hdv
        by_cases ht : b.profileExists (jsToLowerCase form.username)
        · simp [signupAction, hd, ht] at hmem
        · cases hs : b.signUpError with
          | some m =>
            simp [signupAction, hd, ht, hs] at hmem
            exact hmem.2.2.2
          | none =>
            simp [signupAction, hd, ht, hs] at hmem
            exact hmem.2.2.2
  · intro uid un hmem
    cases rateLimitOk with
    | false => simp [changeUsernameAction] at hmem
    | true =>
      cases hcu : b.currentUser with
      | none => simp [changeUsernameAction, requireAuth, hcu] at hmem
      | some u =>
        cases hd : (changeUsernameSchemaParse username).data with
        | none => simp [changeUsernameAction, requireAuth, hcu, hd] at hmem
        | some uname =>
          have hdv : uname = jsToLowerCase username := by
            unfold changeUsernameSchemaParse at hd
            exact mkSafeParse_data_inv _ _ hd
          subst hdv
          by_cases ht : b.profileExistsExcludingId (jsToLowerCase username) u.id
          · simp [changeUsernameAction, requireAuth, hcu, hd, ht] at hmem
          · cases hp : b.profileUpdateError with
            | some m =>
              simp [changeUsernameAction, requireAuth, hcu, hd, ht, hp] at hmem
              exact hmem.2
            | none =>
              simp [changeUsernameAction, requireAuth, hcu, hd, ht, hp] at hmem
              exact hmem.2

/-- C9 witness: concrete runs of both actions reaching their write, on
the submitted username `"JohnDoe"`. -/
theorem C9_stored_usernames_lowercase_witness :
    (Step.signUpCall "a@b.co" "Aa1!aaaa" "John Doe" "johndoe" ∈
       (signupAction "203.0.113.5" true ⟨"John Doe", "JohnDoe", "a@b.co", "Aa1!aaaa"⟩
         sampleBackend).2 ∧
     Step.profileUpdate "user-1" "johndoe" ∈
       (changeUsernameAction "203.0.113.5" true "JohnDoe" sampleBackend).2) ∧
    "johndoe" = jsToLowerCase "JohnDoe" := by
  have h := C9_stored_usernames_lowercase "203.0.113.5" true
    ⟨"John Doe", "JohnDoe", "a@b.co", "Aa1!aaaa"⟩ "JohnDoe" sampleBackend
  exact ⟨⟨by decide, by decide⟩, h.1 "a@b.co" "Aa1!aaaa" "John Doe" "johndoe" (by decide)⟩

/-- C10: `deleteAccount` never calls `auth.admin.deleteUser` unless the
submitted confirmation text is exactly `"DELETE"`; when it differs (with
the caller authenticated and the rate limit not exceeded) the action
returns `{success: false, error: "Please type DELETE to confirm"}` with
no deletion call made; and for a user with a password identity the
deletion call is only ever reached with a submitted, nonempty password
that verified against the backend. -/
theorem C10_deleteAccount_guards (clientIp : String) (rateLimitOk : Bool)
    (form : DeleteForm) (b : Backend) :
    (form.confirmText ≠ some "DELETE" →
      (deleteAccountAction clientIp rateLimitOk form b).2.all
        (fun s => !s.isAdminDeleteUser) = true) ∧
    (∀ u, rateLimitOk = true → b.currentUser = some u →
      form.confirmText ≠ some "DELETE" →
      (deleteAccountAction clientIp rateLimitOk form b).1 =
        DeleteOutcome.result
          { success := false, error := some "Please type DELETE to confirm",
            message := none }) ∧
    (∀ u uid, b.currentUser = some u → u.identityProviders.contains "email" = true →
      Step.adminDeleteUser uid ∈ (deleteAccountAction clientIp rateLimitOk form b).2 →
      ∃ pw, form.password = some pw ∧ pw ≠ "" ∧
        b.signInPasswordError u.email pw = none) := by
  refine ⟨?_, ?_, ?_⟩
  · intro hc
    cases rateLimitOk with
    | false => simp [deleteAccountAction, Step.isAdminDeleteUser]
    | true =>
      cases hcu : b.currentUser with
      | none => simp [deleteAccountAction, requireAuth, hcu, Step.isAdminDeleteUser]
      | some u => simp [deleteAccountAction, requireAuth, hcu, hc, Step.isAdminDeleteUser]
  · intro u hrl hcu hc
    subst hrl
    simp [deleteAccountAction, requireAuth, hcu, hc]
  · intro u uid hcu hemail hmem
    cases rateLimitOk with
    | false => simp [deleteAccountAction] at hmem
    | true =>
      simp only [deleteAccountAction, requireAuth, hcu, Bool.not_true, Bool.false_eq_true,
        if_false] at hmem
      by_cases hct : form.confirmText = some "DELETE"
      · simp only [hct, ne_eq, not_true_eq_false, if_false, hemail, if_true] at hmem
        cases hpw : form.password with
        | none => simp [hpw] at hmem
        | some pw =>
          by_cases hpe : pw = ""
          · simp [hpw, hpe] at hmem
          · cases hsi : b.signInPasswordError u.email pw with
            | some m => simp [hpw, hpe, hsi] at hmem
            | none => exact ⟨pw, rfl, hpe, hsi⟩
      · simp [hct] at hmem

/-- C10 witness: a concrete run with a wrong confirmation text (taking
the confirmation-guard conclusions) and a concrete password-based run
reaching the deletion call (taking the password-verification
conclusion). -/
theorem C10_deleteAccount_guards_witness :
    ((deleteAccountAction "203.0.113.5" true ⟨some "nope", some "pw"⟩ sampleBackend).2.all
       (fun s => !s.isAdminDeleteUser) = true ∧
     (deleteAccountAction "203.0.113.5" true ⟨some "nope", some "pw"⟩ sampleBackend).1 =
       DeleteOutcome.result
         { success := false, error := some "Please type DELETE to confirm",
           message := none }) ∧
    (∃ pw, (⟨some "DELETE", some "pw"⟩ : DeleteForm).password = some pw ∧ pw ≠ "" ∧
       sampleBackend.signInPasswordError sampleUser.email pw = none) := by
  have h1 := C10_deleteAccount_guards "203.0.113.5" true ⟨some "nope", some "pw"⟩ sampleBackend
  have h2 := C10_deleteAccount_guards "203.0.113.5" true ⟨some "DELETE", some "pw"⟩ sampleBackend
  refine ⟨⟨h1.1 (by decide), h1.2.1 sampleUser rfl rfl (by decide)⟩, ?_⟩
  exact h2.2.2 sampleUser "user-1" rfl (by decide) (by decide)

/-! ### Trace-shape lemmas: the exhaustive possible traces of each
sensitive action, used for the pipeline-ordering claim. -/

theorem loginAction_trace_shape (clientIp : String) (rateLimitOk : Bool)
    (email password : String) (b : Backend) :
    (loginAction clientIp rateLimitOk email password b).2 =
        [Step.rateLimitCheck ("login:" ++ clientIp)] ∨
    (loginAction clientIp rateLimitOk email password b).2 =
        [Step.rateLimitCheck ("login:" ++ clientIp), Step.schemaValidation "loginSchema"] ∨
    (loginAction clientIp rateLimitOk email password b).2 =
        [Step.rateLimitCheck ("login:" ++ clientIp), Step.schemaValidation "loginSchema",
         Step.signInPassword (jsToLowerCase email) password] := by
  cases rateLimitOk with
  | false => left; simp [loginAction]
  | true =>
    cases hd : (loginSchemaParse email password).data with
    | none => right; left; simp [loginAction, hd]
    | some d =>
      have hdv : d = ⟨jsToLowerCase email, password⟩ := by
        unfold loginSchemaParse at hd
        exact mkSafeParse_data_inv _ _ hd
      subst hdv
      cases hsi : b.signInPasswordError (jsToLowerCase email) password with
      | some m => right; right; simp [loginAction, hd, hsi]
      | none => right; right; simp [loginAction, hd, hsi]

theorem signupAction_trace_shape (clientIp : String) (rateLimitOk : Bool)
    (form : SignupForm) (b : Backend) :
    (signupAction clientIp rateLimitOk form b).2 =
        [Step.rateLimitCheck ("signup:" ++ clientIp)] ∨
    (signupAction clientIp rateLimitOk form b).2 =
        [Step.rateLimitCheck ("signup:" ++ clientIp), Step.schemaValidation "signupSchema"] ∨
    (signupAction clientIp rateLimitOk form b).2 =
        [Step.rateLimitCheck ("signup:" ++ clientIp), Step.schemaValidation "signupSchema",
         Step.profileQuery (jsToLowerCase form.username)] ∨
    (signupAction clientIp rateLimitOk form b).2 =
        [Step.rateLimitCheck ("signup:" ++ clientIp), Step.schemaValidation "signupSchema",
         Step.profileQuery (jsToLowerCase form.username),
         Step.signUpCall (jsToLowerCase form.email) form.password form.fullName
           (jsToLowerCase form.username)] := by
  cases rateLimitOk with
  | false => left; simp [signupAction]
  | true =>
    cases hd : (signupSchemaParse form).data with
    | none => right; left; simp [signupAction, hd]
    | some d =>
      have hdv : d = ⟨form.fullName, form.username, jsToLowerCase form.email, form.password⟩ := by
        unfold signupSchemaParse at hd
        exact mkSafeParse_data_inv _ _ hd
      subst hdv
      by_cases ht : b.profileExists (jsToLowerCase form.username)
      · right; right; left; simp [signupAction, hd, ht]
      · cases hs : b.signUpError with
        | some m => right; right; right; simp [signupAction, hd, ht, hs]
        | none => right; right; right; simp [signupAction, hd, ht, hs]

theorem changePasswordAction_trace_shape (clientIp : String) (rateLimitOk : Bool)
    (currentPw newPw confirmPw : String) (b : Backend) :
    (changePasswordAction clientIp rateLimitOk currentPw newPw confirmPw b).2 =
        [Step.rateLimitCheck ("change-password:" ++ clientIp)] ∨
    (changePasswordAction clientIp rateLimitOk currentPw newPw confirmPw b).2 =
        [Step.rateLimitCheck ("change-password:" ++ clientIp), Step.authCheck] ∨
    (changePasswordAction clientIp rateLimitOk currentPw newPw confirmPw b).2 =
        [Step.rateLimitCheck ("change-password:" ++ clientIp), Step.authCheck,
         Step.schemaValidation "changePasswordSchema"] ∨
    (∃ em, (changePasswordAction clientIp rateLimitOk currentPw newPw confirmPw b).2 =
        [Step.rateLimitCheck ("change-password:" ++ clientIp), Step.authCheck,
         Step.schemaValidation "changePasswordSchema", Step.signInPassword em currentPw]) ∨
    (∃ em, (changePasswordAction clientIp rateLimitOk currentPw newPw confirmPw b).2 =
        [Step.rateLimitCheck ("change-password:" ++ clientIp), Step.authCheck,
         Step.schemaValidation "changePasswordSchema", Step.signInPassword em currentPw,
         Step.updateUserPassword newPw]) := by
  cases rateLimitOk with
  | false => left; simp [changePasswordAction]
  | true =>
    cases hcu : b.currentUser with
    | none => right; left; simp [changePasswordAction, requireAuth, hcu]
    | some u =>
      cases hd : (changePasswordSchemaParse currentPw newPw confirmPw).data with
      | none => right; right; left; simp [changePasswordAction, requireAuth, hcu, hd]
      | some d =>
        have hdv : d = ⟨currentPw, newPw, confirmPw⟩ := by
          unfold changePasswordSchemaParse at hd
          exact mkSafeParse_data_inv _ _ hd
        subst hdv
        cases hsi : b.signInPasswordError u.email currentPw with
        | some m =>
          right; right; right; left
          exact ⟨u.email, by simp [changePasswordAction, requireAuth, hcu, hd, hsi]⟩
        | none =>
          cases hup : b.updateUserError with
          | some m =>
            right; right; right; right
            exact ⟨u.email, by simp [changePasswordAction, requireAuth, hcu, hd, hsi, hup]⟩
          | none =>
            right; right; right; right
            exact ⟨u.email, by simp [changePasswordAction, requireAuth, hcu, hd, hsi, hup]⟩

theorem changeUsernameAction_trace_shape (clientIp : String) (rateLimitOk : Bool)
    (username : String) (b : Backend) :
    (changeUsernameAction clientIp rateLimitOk username b).2 =
        [Step.rateLimitCheck ("change-username:" ++ clientIp)] ∨
    (changeUsernameAction clientIp rateLimitOk username b).2 =
        [Step.rateLimitCheck ("change-username:" ++ clientIp), Step.authCheck] ∨
    (changeUsernameAction clientIp rateLimitOk username b).2 =
        [Step.rateLimitCheck ("change-username:" ++ clientIp), Step.authCheck,
         Step.schemaValidation "changeUsernameSchema"] ∨
    (∃ uid, (changeUsernameAction clientIp rateLimitOk username b).2 =
        [Step.rateLimitCheck ("change-username:" ++ clientIp), Step.authCheck,
         Step.schemaValidation "changeUsernameSchema",
         Step.profileQueryExcludingId (jsToLowerCase username) uid]) ∨
    (∃ uid, (changeUsernameAction clientIp rateLimitOk username b).2 =
        [Step.rateLimitCheck ("change-username:" ++ clientIp), Step.authCheck,
         Step.schemaValidation "changeUsernameSchema",
         Step.profileQueryExcludingId (jsToLowerCase username) uid,
         Step.profileUpdate uid (jsToLowerCase username)]) := by
  cases rateLimitOk with
  | false => left; simp [changeUsernameAction]
  | true =>
    cases hcu : b.currentUser with
    | none => right; left; simp [changeUsernameAction, requireAuth, hcu]
    | some u =>
      cases hd : (changeUsernameSchemaParse username).data with
      | none => right; right; left; simp [changeUsernameAction, requireAuth, hcu, hd]
      | some uname =>
        have hdv : uname = jsToLowerCase username := by
          unfold changeUsernameSchemaParse at hd
          exact mkSafeParse_data_inv _ _ hd
        subst hdv
        by_cases ht : b.profileExistsExcludingId (jsToLowerCase username) u.id
        · right; right; right; left
          exact ⟨u.id, by simp [changeUsernameAction, requireAuth, hcu, hd, ht]⟩
        · cases hp : b.profileUpdateError with
          | some m =>
            right; right; right; right
            exact ⟨u.id, by simp [changeUsernameAction, requireAuth, hcu, hd, ht, hp]⟩
          | none =>
            right; right; right; right
            exact ⟨u.id, by simp [changeUsernameAction, requireAuth, hcu, hd, ht, hp]⟩

theorem deleteAccountAction_trace_shape (clientIp : String) (rateLimitOk : Bool)
    (form : DeleteForm) (b : Backend) :
    (deleteAccountAction clientIp rateLimitOk form b).2 =
        [Step.rateLimitCheck ("delete-account:" ++ clientIp)] ∨
    (deleteAccountAction clientIp rateLimitOk form b).2 =
        [Step.rateLimitCheck ("delete-account:" ++ clientIp), Step.authCheck] ∨
    (deleteAccountAction clientIp rateLimitOk form b).2 =
        [Step.rateLimitCheck ("delete-account:" ++ clientIp), Step.authCheck,
         Step.manualCheck "confirmText"] ∨
    (deleteAccountAction clientIp rateLimitOk form b).2 =
        [Step.rateLimitCheck ("delete-account:" ++ clientIp), Step.authCheck,
         Step.manualCheck "confirmText", Step.manualCheck "password"] ∨
    (∃ em pw, (deleteAccountAction clientIp rateLimitOk form b).2 =
        [Step.rateLimitCheck ("delete-account:" ++ clientIp), Step.authCheck,
         Step.manualCheck "confirmText", Step.manualCheck "password",
         Step.signInPassword em pw]) ∨
    (∃ em pw uid, (deleteAccountAction clientIp rateLimitOk form b).2 =
        [Step.rateLimitCheck ("delete-account:" ++ clientIp), Step.authCheck,
         Step.manualCheck "confirmText", Step.manualCheck "password",
         Step.signInPassword em pw, Step.adminDeleteUser uid]) ∨
    (∃ em pw uid, (deleteAccountAction clientIp rateLimitOk form b).2 =
        [Step.rateLimitCheck ("delete-account:" ++ clientIp), Step.authCheck,
         Step.manualCheck "confirmText", Step.manualCheck "password",
         Step.signInPassword em pw, Step.adminDeleteUser uid, Step.signOutCall]) ∨
    (∃ uid, (deleteAccountAction clientIp rateLimitOk form b).2 =
        [Step.rateLimitCheck ("delete-account:" ++ clientIp), Step.authCheck,
         Step.manualCheck "confirmText", Step.adminDeleteUser uid]) ∨
    (∃ uid, (deleteAccountAction clientIp rateLimitOk form b).2 =
        [Step.rateLimitCheck ("delete-account:" ++ clientIp), Step.authCheck,
         Step.manualCheck "confirmText", Step.adminDeleteUser uid, Step.signOutCall]) := by
  cases rateLimitOk with
  | false => left; simp [deleteAccountAction]
  | true =>
    cases hcu : b.currentUser with
    | none => right; left; simp [deleteAccountAction, requireAuth, hcu]
    | some u =>
      by_cases hct : form.confirmText = some "DELETE"
      · by_cases hem : "email" ∈ u.identityProviders
        · cases hpw : form.password with
          | none =>
            right; right; right; left
            simp [deleteAccountAction, requireAuth, hcu, hct, hem, hpw]
          | some pw =>
            by_cases hpe : pw = ""
            · right; right; right; left
              simp [deleteAccountAction, requireAuth, hcu, hct, hem, hpw, hpe]
            · cases hsi : b.signInPasswordError u.email pw with
              | some m =>
                right; right; right; right; left
                exact ⟨u.email, pw,
                  by simp [deleteAccountAction, requireAuth, hcu, hct, hem, hpw, hpe, hsi]⟩
              | none =>
                cases hdel : b.deleteUserError with
                | some m =>
                  by_cases hna : hasSubstringChars "not authorized".data m.data
                  · right; right; right; right; right; right; left
                    exact ⟨u.email, pw, u.id,
                      by simp [deleteAccountAction, deleteAccountFinish, requireAuth, hcu,
                        hct, hem, hpw, hpe, hsi, hdel, hna]⟩
                  · right; right; right; right; right; left
                    exact ⟨u.email, pw, u.id,
                      by simp [deleteAccountAction, deleteAccountFinish, requireAuth, hcu,
                        hct, hem, hpw, hpe, hsi, hdel, hna]⟩
                | none =>
                  right; right; right; right; right; right; left
                  exact ⟨u.email, pw, u.id,
                    by simp [deleteAccountAction, deleteAccountFinish, requireAuth, hcu,
                      hct, hem, hpw, hpe, hsi, hdel]⟩
        · cases hdel : b.deleteUserError with
          | some m =>
            by_cases hna : hasSubstringChars "not authorized".data m.data
            · right; right; right; right; right; right; right; right
              exact ⟨u.id, by simp [deleteAccountAction, deleteAccountFinish, requireAuth,
                hcu, hct, hem, hdel, hna]⟩
            · right; right; right; right; right; right; right; left
              exact ⟨u.id, by simp [deleteAccountAction, deleteAccountFinish, requireAuth,
                hcu, hct, hem, hdel, hna]⟩
          | none =>
            right; right; right; right; right; right; right; right
            exact ⟨u.id, by simp [deleteAccountAction, deleteAccountFinish, requireAuth,
              hcu, hct, hem, hdel]⟩
      · right; right; left
        simp [deleteAccountAction, requireAuth, hcu, hct]

/-- C3 (amended): each sensitive server action runs a fixed early-return
pipeline — first the rate-limit check keyed by action name and client IP
(rejecting with its "too many attempts" message and performing nothing
else when exceeded), then (for the settings actions) the authentication
check, then input validation, then the backend calls, with backend errors
mapped to a user-facing message; the trace of every run is ordered by
these phases and no backend call happens once validation has failed.
For `login`, `signup`, `changePassword` and `changeUsername` the
validation step is schema validation; `deleteAccount` instead validates
its form fields manually (`confirmText === 'DELETE'`). -/
theorem C3_pipeline_order (clientIp : String) (rateLimitOk : Bool) (b : Backend) :
    (∀ email password : String,
      (loginAction clientIp rateLimitOk email password b).2.head? =
        some (Step.rateLimitCheck ("login:" ++ clientIp)) ∧
      (rateLimitOk = false →
        (loginAction clientIp rateLimitOk email password b).1 =
          { success := false,
            error := some "Too many login attempts. Please try again later.",
            redirectTo := none } ∧
        (loginAction clientIp rateLimitOk email password b).2 =
          [Step.rateLimitCheck ("login:" ++ clientIp)]) ∧
      phasesOrdered (loginAction clientIp rateLimitOk email password b).2 = true ∧
      ((loginSchemaParse email password).success = false →
        (loginAction clientIp rateLimitOk email password b).2.all
          (fun s => !s.isBackendOp) = true) ∧
      (∀ m : String, rateLimitOk = true →
        (loginSchemaParse email password).success = true →
        b.signInPasswordError (jsToLowerCase email) password = some m →
        (loginAction clientIp rateLimitOk email password b).1 =
          { success := false, error := some m, redirectTo := none })) ∧
    (∀ form : SignupForm,
      (signupAction clientIp rateLimitOk form b).2.head? =
        some (Step.rateLimitCheck ("signup:" ++ clientIp)) ∧
      (rateLimitOk = false →
        (signupAction clientIp rateLimitOk form b).1 =
          { success := false,
            error := some "Too many signup attempts. Please try again later.",
            redirectTo := none } ∧
        (signupAction clientIp rateLimitOk form b).2 =
          [Step.rateLimitCheck ("signup:" ++ clientIp)]) ∧
      phasesOrdered (signupAction clientIp rateLimitOk form b).2 = true ∧
      ((signupSchemaParse form).success = false →
        (signupAction clientIp rateLimitOk form b).2.all
          (fun s => !s.isBackendOp) = true) ∧
      (∀ m : String, rateLimitOk = true → (signupSchemaParse form).success = true →
        b.profileExists (jsToLowerCase form.username) = false →
        b.signUpError = some m →
        (signupAction clientIp rateLimitOk form b).1 =
          { success := false, error := some m, redirectTo := none })) ∧
    (∀ currentPw newPw confirmPw : String,
      (changePasswordAction clientIp rateLimitOk currentPw newPw confirmPw b).2.head? =
        some (Step.rateLimitCheck ("change-password:" ++ clientIp)) ∧
      (rateLimitOk = false →
        (changePasswordAction clientIp rateLimitOk currentPw newPw confirmPw b).1 =
          { success := false, error := some "Too many attempts. Please try again later.",
            message := none } ∧
        (changePasswordAction clientIp rateLimitOk currentPw newPw confirmPw b).2 =
          [Step.rateLimitCheck ("change-password:" ++ clientIp)]) ∧
      phasesOrdered (changePasswordAction clientIp rateLimitOk currentPw newPw confirmPw b).2 =
        true ∧
      ((changePasswordSchemaParse currentPw newPw confirmPw).success = false →
        (changePasswordAction clientIp rateLimitOk currentPw newPw confirmPw b).2.all
          (fun s => !s.isBackendOp) = true) ∧
      (∀ u : User, ∀ m : String, rateLimitOk = true → b.currentUser = some u →
        (changePasswordSchemaParse currentPw newPw confirmPw).success = true →
        b.signInPasswordError u.email currentPw = none →
        b.updateUserError = some m →
        (changePasswordAction clientIp rateLimitOk currentPw newPw confirmPw b).1 =
          { success := false, error := some m, message := none })) ∧
    (∀ username : String,
      (changeUsernameAction clientIp rateLimitOk username b).2.head? =
        some (Step.rateLimitCheck ("change-username:" ++ clientIp)) ∧
      (rateLimitOk = false →
        (changeUsernameAction clientIp rateLimitOk username b).1 =
          { success := false, error := some "Too many attempts. Please try again later.",
            message := none } ∧
        (changeUsernameAction clientIp rateLimitOk username b).2 =
          [Step.rateLimitCheck ("change-username:" ++ clientIp)]) ∧
      phasesOrdered (changeUsernameAction clientIp rateLimitOk username b).2 = true ∧
      ((changeUsernameSchemaParse username).success = false →
        (changeUsernameAction clientIp rateLimitOk username b).2.all
          (fun s => !s.isBackendOp) = true) ∧
      (∀ u : User, ∀ m : String, rateLimitOk = true → b.currentUser = some u →
        (changeUsernameSchemaParse username).success = true →
        b.profileExistsExcludingId (jsToLowerCase username) u.id = false →
        b.profileUpdateError = some m →
        (changeUsernameAction clientIp rateLimitOk username b).1 =
          { success := false, error := some m, message := none })) ∧
    (∀ form : DeleteForm,
      (deleteAccountAction clientIp rateLimitOk form b).2.head? =
        some (Step.rateLimitCheck ("delete-account:" ++ clientIp)) ∧
      (rateLimitOk = false →
        (deleteAccountAction clientIp rateLimitOk form b).1 =
          DeleteOutcome.result
            { success := false, error := some "Too many attempts. Please try again later.",
              message := none } ∧
        (deleteAccountAction clientIp rateLimitOk form b).2 =
          [Step.rateLimitCheck ("delete-account:" ++ clientIp)]) ∧
      phasesOrdered (deleteAccountAction clientIp rateLimitOk form b).2 = true ∧
      (form.confirmText ≠ some "DELETE" →
        (deleteAccountAction clientIp rateLimitOk form b).2.all
          (fun s => !s.isBackendOp) = true) ∧
      (∀ u : User, ∀ m : String, rateLimitOk = true → b.currentUser = some u →
        form.confirmText = some "DELETE" → "email" ∉ u.identityProviders →
        b.deleteUserError = some m →
        hasSubstringChars "not authorized".data m.data = false →
        (deleteAccountAction clientIp rateLimitOk form b).1 =
          DeleteOutcome.result { success := false, error := some m, message := none })) := by
  refine ⟨?_, ?_, ?_, ?_, ?_⟩
  · intro email password
    refine ⟨?_, ?_, ?_, ?_, ?_⟩
    · rcases loginAction_trace_shape clientIp rateLimitOk email password b with
        h | h | h <;> rw [h] <;> rfl
    · intro hrl
      subst hrl
      exact ⟨by simp [loginAction], by simp [loginAction]⟩
    · rcases loginAction_trace_shape clientIp rateLimitOk email password b with
        h | h | h <;> rw [h] <;> rfl
    · intro hv
      have hd : (loginSchemaParse email password).data = none := by
        unfold loginSchemaParse at hv ⊢
        exact mkSafeParse_data_of_failure _ _ hv
      cases rateLimitOk <;>
        simp [loginAction, hd, Step.isBackendOp, Step.phase]
    · intro m hrl hv hsi
      subst hrl
      have hd : (loginSchemaParse email password).data =
          some ⟨jsToLowerCase email, password⟩ := by
        unfold loginSchemaParse at hv ⊢
        exact mkSafeParse_data_of_success _ _ hv
      simp [loginAction, hd, hsi]
  · intro form
    refine ⟨?_, ?_, ?_, ?_, ?_⟩
    · rcases signupAction_trace_shape clientIp rateLimitOk form b with
        h | h | h | h <;> rw [h] <;> rfl
    · intro hrl
      subst hrl
      exact ⟨by simp [signupAction], by simp [signupAction]⟩
    · rcases signupAction_trace_shape clientIp rateLimitOk form b with
        h | h | h | h <;> rw [h] <;> rfl
    · intro hv
      have hd : (signupSchemaParse form).data = none := by
        unfold signupSchemaParse at hv ⊢
        exact mkSafeParse_data_of_failure _ _ hv
      cases rateLimitOk <;>
        simp [signupAction, hd, Step.isBackendOp, Step.phase]
    · intro m hrl hv ht hs
      subst hrl
      have hd : (signupSchemaParse form).data =
          some ⟨form.fullName, form.username, jsToLowerCase form.email, form.password⟩ := by
        unfold signupSchemaParse at hv ⊢
        exact mkSafeParse_data_of_success _ _ hv
      simp [signupAction, hd, ht, hs]
  · intro currentPw newPw confirmPw
    refine ⟨?_, ?_, ?_, ?_, ?_⟩
    · rcases changePasswordAction_trace_shape clientIp rateLimitOk currentPw newPw confirmPw b
        with h | h | h | ⟨em, h⟩ | ⟨em, h⟩ <;> rw [h] <;> rfl
    · intro hrl
      subst hrl
      exact ⟨by simp [changePasswordAction], by simp [changePasswordAction]⟩
    · rcases changePasswordAction_trace_shape clientIp rateLimitOk currentPw newPw confirmPw b
        with h | h | h | ⟨em, h⟩ | ⟨em, h⟩ <;> rw [h] <;> rfl
    · intro hv
      have hd : (changePasswordSchemaParse currentPw newPw confirmPw).data = none := by
        unfold changePasswordSchemaParse at hv ⊢
        exact mkSafeParse_data_of_failure _ _ hv
      cases rateLimitOk with
      | false => simp [changePasswordAction, Step.isBackendOp, Step.phase]
      | true =>
        cases hcu : b.currentUser <;>
          simp [changePasswordAction, requireAuth, hcu, hd, Step.isBackendOp, Step.phase]
    · intro u m hrl hcu hv hsi hup
      subst hrl
      have hd : (changePasswordSchemaParse currentPw newPw confirmPw).data =
          some ⟨currentPw, newPw, confirmPw⟩ := by
        unfold changePasswordSchemaParse at hv ⊢
        exact mkSafeParse_data_of_success _ _ hv
      simp [changePasswordAction, requireAuth, hcu, hd, hsi, hup]
  · intro username
    refine ⟨?_, ?_, ?_, ?_, ?_⟩
    · rcases changeUsernameAction_trace_shape clientIp rateLimitOk username b
        with h | h | h | ⟨uid, h⟩ | ⟨uid, h⟩ <;> rw [h] <;> rfl
    · intro hrl
      subst hrl
      exact ⟨by simp [changeUsernameAction], by simp [changeUsernameAction]⟩
    · rcases changeUsernameAction_trace_shape clientIp rateLimitOk username b
        with h | h | h | ⟨uid, h⟩ | ⟨uid, h⟩ <;> rw [h] <;> rfl
    · intro hv
      have hd : (changeUsernameSchemaParse username).data = none := by
        unfold changeUsernameSchemaParse at hv ⊢
        exact mkSafeParse_data_of_failure _ _ hv
      cases rateLimitOk with
      | false => simp [changeUsernameAction, Step.isBackendOp, Step.phase]
      | true =>
        cases hcu : b.currentUser <;>
          simp [changeUsernameAction, requireAuth, hcu, hd, Step.isBackendOp, Step.phase]
    · intro u m hrl hcu hv ht hp
      subst hrl
      have hd : (changeUsernameSchemaParse username).data =
          some (jsToLowerCase username) := by
        unfold changeUsernameSchemaParse at hv ⊢
        exact mkSafeParse_data_of_success _ _ hv
      simp [changeUsernameAction, requireAuth, hcu, hd, ht, hp]
  · intro form
    refine ⟨?_, ?_, ?_, ?_, ?_⟩
    · rcases deleteAccountAction_trace_shape clientIp rateLimitOk form b
        with h | h | h | h | ⟨em, pw, h⟩ | ⟨em, pw, uid, h⟩ | ⟨em, pw, uid, h⟩ |
          ⟨uid, h⟩ | ⟨uid, h⟩ <;> rw [h] <;> rfl
    · intro hrl
      subst hrl
      exact ⟨by simp [deleteAccountAction], by simp [deleteAccountAction]⟩
    · rcases deleteAccountAction_trace_shape clientIp rateLimitOk form b
        with h | h | h | h | ⟨em, pw, h⟩ | ⟨em, pw, uid, h⟩ | ⟨em, pw, uid, h⟩ |
          ⟨uid, h⟩ | ⟨uid, h⟩ <;> rw [h] <;> rfl
    · intro hc
      cases rateLimitOk with
      | false => simp [deleteAccountAction, Step.isBackendOp, Step.phase]
      | true =>
        cases hcu : b.currentUser with
        | none =>
          simp [deleteAccountAction, requireAuth, hcu, Step.isBackendOp, Step.phase]
        | some u =>
          simp [deleteAccountAction, requireAuth, hcu, hc, Step.isBackendOp, Step.phase]
    · intro u m hrl hcu hct hem hdel hna
      subst hrl
      simp [deleteAccountAction, deleteAccountFinish, requireAuth, hcu, hct, hem, hdel, hna]

/-- C3 counterexample to the claim as stated: a `deleteAccount` run that
reaches its backend deletion call without ever executing a schema
validation step — `deleteAccount` reads `confirmText` and `password`
directly off the `FormData` and never invokes `deleteAccountSchema`. -/
theorem C3_pipeline_order_counterexample :
    Step.adminDeleteUser "user-1" ∈
      (deleteAccountAction "203.0.113.5" true ⟨some "DELETE", some "pw"⟩ sampleBackend).2 ∧
    (deleteAccountAction "203.0.113.5" true ⟨some "DELETE", some "pw"⟩ sampleBackend).2.all
      (fun s => !s.isSchemaValidation) = true := by decide

/-- C3 witness: concrete pipeline runs — a rate-limited login stopping at
the rate check, a login with an invalid email performing no backend call,
a backend sign-in error surfaced as the result's error, and a
`deleteAccount` with a wrong confirmation text performing no backend
call. -/
theorem C3_pipeline_order_witness :
    ((loginAction "203.0.113.5" false "a@b.co" "pw" {}).1 =
       { success := false, error := some "Too many login attempts. Please try again later.",
         redirectTo := none } ∧
     (loginAction "203.0.113.5" false "a@b.co" "pw" {}).2 =
       [Step.rateLimitCheck ("login:" ++ "203.0.113.5")]) ∧
    (loginAction "203.0.113.5" true "notanemail" "pw" {}).2.all
      (fun s => !s.isBackendOp) = true ∧
    (loginAction "203.0.113.5" true "a@b.co" "Aa1!aaaa"
        { signInPasswordError := fun _ _ => some "Invalid login credentials" }).1 =
      { success := false, error := some "Invalid login credentials", redirectTo := none } ∧
    (deleteAccountAction "203.0.113.5" true ⟨some "nope", some "pw"⟩ sampleBackend).2.all
      (fun s => !s.isBackendOp) = true := by
  have h1 := (C3_pipeline_order "203.0.113.5" false {}).1 "a@b.co" "pw"
  have h2 := (C3_pipeline_order "203.0.113.5" true {}).1 "notanemail" "pw"
  have h3 := (C3_pipeline_order "203.0.113.5" true
    { signInPasswordError := fun _ _ => some "Invalid login credentials" }).1
    "a@b.co" "Aa1!aaaa"
  have h5 := (C3_pipeline_order "203.0.113.5" true sampleBackend).2.2.2.2
    ⟨some "nope", some "pw"⟩
  exact ⟨h1.2.1 rfl, h2.2.2.2.1 (by decide),
    h3.2.2.2.2 "Invalid login credentials" rfl (by decide) rfl,
    h5.2.2.2.1 (by decide)⟩

end JTDev
